import Mathlib

/-!
Verification development for the stock-analysis multi-agent pipeline.

The definitions below are a shallow embedding of the repository's core:
the Python value model (`PyVal`, association-list dictionaries), the price
normalizer `parse_price` from `src/core/models.py`, the three structured
data tools (`src/tools/market.py`, `src/tools/valuation.py`,
`src/tools/financial.py`), the four graph nodes of `src/graph/nodes.py`,
the declared topology of `src/graph/workflow.py`, and the response
construction of `main.py`.  External collaborators (LLM generation,
`json.loads`, yfinance fetches, `random.uniform`, wall-clock timestamps)
are passed in as oracle parameters, mirroring the call contracts of the
code.  The executor semantics (LangGraph's engine is a third-party
library, not part of the repository sources) is modelled from the spec:
a topological order over the declared edges is resolved, nodes run one
at a time, and each node's partial update is merged into the aggregate
before the next node runs.
-/

/-- Model of a Python runtime value as used by this repository:
`None`, booleans, numbers (ints and floats modelled as rationals),
strings, lists, and string-keyed dictionaries (insertion-ordered
association lists with distinct keys). -/
inductive PyVal where
  | none : PyVal
  | bool : Bool → PyVal
  | num : ℚ → PyVal
  | str : String → PyVal
  | list : List PyVal → PyVal
  | dict : List (String × PyVal) → PyVal

/-- A Python `Dict[str, Any]`. -/
abbrev PyDict := List (String × PyVal)

/-- `d.get(k)`: first binding of key `k`, if any. -/
def dictGet (d : PyDict) (k : String) : Option PyVal :=
  (d.find? (fun p => p.1 == k)).map (fun p => p.2)

/-- `d.get(k, dflt)`. -/
def dictGetD (d : PyDict) (k : String) (dflt : PyVal) : PyVal :=
  (dictGet d k).getD dflt

/-- `k in d`. -/
def hasKey (d : PyDict) (k : String) : Bool :=
  d.any (fun p => p.1 == k)

/-- `d.get(k, dflt)` where the caller expects a string (used for the
`rag_context` lookup in the financial node; the key never occurs in the
tool's result, so the default branch is the one exercised at run time). -/
def getStrD (d : PyDict) (k : String) (dflt : String) : String :=
  match dictGet d k with
  | some (PyVal.str s) => s
  | _ => dflt

mutual
/-- Rendering of a `PyVal` into prompt text, modelling Python's `str()`
up to cosmetic details (number formatting, quoting).  Prompts are only
consumed by the opaque generation oracle, so none of the verified
properties depend on the exact rendering. -/
def pyStr : PyVal → String
  | PyVal.none => "None"
  | PyVal.bool true => "True"
  | PyVal.bool false => "False"
  | PyVal.num q => toString q.num ++ (if q.den = 1 then "" else "/" ++ toString q.den)
  | PyVal.str s => s
  | PyVal.list l => "[" ++ pyStrList l ++ "]"
  | PyVal.dict d => "\x7b" ++ pyStrDict d ++ "\x7d"

/-- Comma-separated rendering of a list of values. -/
def pyStrList : List PyVal → String
  | [] => ""
  | [x] => pyStr x
  | x :: xs => pyStr x ++ ", " ++ pyStrList xs

/-- Comma-separated rendering of a dictionary's bindings. -/
def pyStrDict : List (String × PyVal) → String
  | [] => ""
  | [(k, v)] => k ++ ": " ++ pyStr v
  | (k, v) :: xs => k ++ ": " ++ pyStr v ++ ", " ++ pyStrDict xs
end

/-! ## Price normalization (`AnalysisResponse.parse_price`, `src/core/models.py` lines 47-100) -/

/-- The character class stripped by
`re.sub(r'[美元$¥€£元人民币港币日元韩元USD HKD CNY JPY KRW\s]', '', v)`:
the individual characters of the class (deduplicated) together with
whitespace. -/
def stripChars : List Char :=
  ['美', '元', '$', '¥', '€', '£', '人', '民', '币', '港', '日', '韩',
   'U', 'S', 'D', 'H', 'K', 'C', 'N', 'Y', 'J', 'P', 'R', 'W',
   ' ', '\t', '\n', '\r']

/-- Membership in the stripped character class. -/
def isStripChar (c : Char) : Bool := stripChars.contains c

/-- Numeric value of a digit string (most significant first). -/
def digitsVal (ds : List Char) : ℕ :=
  ds.foldl (fun n c => 10 * n + (c.toNat - 48)) 0

/-- Worker for `scanNumbers`.  The fuel argument only bounds the
recursion depth (each step consumes at least one character, and the
initial fuel is the input length, so the fuel is never exhausted before
the input is); it makes the recursion structural so that terms reduce
by `rfl`. -/
def scanNumbersAux : ℕ → List Char → List (List Char)
  | 0, _ => []
  | _, [] => []
  | fuel + 1, c :: rest =>
    if c.isDigit then
      match List.dropWhile Char.isDigit rest with
      | '.' :: rest2 =>
          (List.takeWhile Char.isDigit (c :: rest) ++ '.' :: List.takeWhile Char.isDigit rest2)
            :: scanNumbersAux fuel (List.dropWhile Char.isDigit rest2)
      | rest1 => List.takeWhile Char.isDigit (c :: rest) :: scanNumbersAux fuel rest1
    else
      scanNumbersAux fuel rest

/-- All matches of `re.findall(r'\d+\.?\d*', cleaned)`: leftmost,
greedy, non-overlapping scans of an integer part optionally followed by
a dot and further digits. -/
def scanNumbers (cs : List Char) : List (List Char) :=
  scanNumbersAux cs.length cs

/-- Rational value of an integer part, a fractional part, and the
fractional part's digit count. -/
def ratOfParts (ip fp fl : ℕ) : ℚ :=
  (ip : ℚ) + (fp : ℚ) / (10 : ℚ) ^ fl

/-- `float(tok)` for a token matched by `\d+\.?\d*`. -/
def tokenToRat (tok : List Char) : ℚ :=
  let ip := List.takeWhile Char.isDigit tok
  let rest := List.dropWhile Char.isDigit tok
  let fp := match rest with | '.' :: f => f | _ => []
  ratOfParts (digitsVal ip) (digitsVal fp) fp.length

/-- Round-half-to-even to an integer (Python's rounding mode). -/
def roundHalfEven (q : ℚ) : ℤ :=
  let f : ℤ := Int.fdiv q.num q.den
  if q - f < 1 / 2 then f
  else if 1 / 2 < q - f then f + 1
  else if 2 ∣ f then f else f + 1

/-- Python's `round(x, 2)` on the rational number model. -/
def round2 (q : ℚ) : ℚ := (roundHalfEven (q * 100) : ℚ) / 100

/-- `Int.fdiv` by one is the identity. -/
theorem int_fdiv_one (n : ℤ) : Int.fdiv n 1 = n := by
  rw [Int.fdiv_eq_ediv]
  · simp
  · norm_num

/-- Half-even rounding fixes integers. -/
theorem roundHalfEven_intCast (n : ℤ) : roundHalfEven (n : ℚ) = n := by
  unfold roundHalfEven
  rw [Rat.num_intCast, Rat.den_intCast]
  push_cast [int_fdiv_one]
  norm_num

/-- Evaluation rule for `round2` when the scaled value is an integer. -/
theorem round2_of_mul_eq (q : ℚ) (n : ℤ) (h : q * 100 = (n : ℚ)) :
    round2 q = (n : ℚ) / 100 := by
  unfold round2
  rw [h, roundHalfEven_intCast]

/-- `int(x)` (truncation toward zero). -/
def pyInt (q : ℚ) : ℤ := Int.tdiv q.num q.den

/-- `AnalysisResponse.parse_price` (`src/core/models.py` lines 47-100):
`None` passes through; numbers (Python `bool` included, since `bool` is
an `int` there) become floats; a string is stripped of the currency
character class, all `\d+\.?\d*` matches are extracted, and their
arithmetic mean rounded to 2 decimals is returned when at least one is
found, the original string otherwise; any other value is returned
unchanged (the function's final `return v`). -/
def parse_price (v : PyVal) : PyVal :=
  match v with
  | PyVal.none => PyVal.none
  | PyVal.bool b => PyVal.num (if b then 1 else 0)
  | PyVal.num q => PyVal.num q
  | PyVal.str v0 =>
      let cleaned := v0.data.filter (fun c => !(isStripChar c))
      let numbers := scanNumbers cleaned
      if numbers = [] then PyVal.str v0
      else PyVal.num (round2 (((numbers.map tokenToRat).sum) / (numbers.length : ℚ)))
  | PyVal.list l => PyVal.list l
  | PyVal.dict d => PyVal.dict d

example : parse_price (PyVal.str "270-285美元") = PyVal.num (555 / 2) := by
  have h0 : parse_price (PyVal.str "270-285美元")
      = PyVal.num (round2 ((ratOfParts 270 0 0 + (ratOfParts 285 0 0 + 0)) / ((2 : ℕ) : ℚ))) := rfl
  rw [h0, round2_of_mul_eq _ 27750 (by norm_num [ratOfParts])]
  norm_num
example : parse_price (PyVal.str "$280") = PyVal.num 280 := by
  have h0 : parse_price (PyVal.str "$280")
      = PyVal.num (round2 ((ratOfParts 280 0 0 + 0) / ((1 : ℕ) : ℚ))) := rfl
  rw [h0, round2_of_mul_eq _ 28000 (by norm_num [ratOfParts])]
  norm_num
example : parse_price (PyVal.str "无法确定") = PyVal.str "无法确定" := rfl
example : parse_price (PyVal.num 255) = PyVal.num 255 := rfl

/-! ## Structured-data tools (`src/tools/market.py`, `src/tools/valuation.py`, `src/tools/financial.py`) -/

/-- One row of `stock.history(period="1d")`. -/
structure Bar where
  openP : ℚ
  highP : ℚ
  lowP : ℚ
  closeP : ℚ
  volume : ℚ
deriving Inhabited

/-- The `stock.info` fields read by `get_market_data` (yfinance is an
external collaborator; its response is an oracle input). -/
structure YfInfo where
  longName : Option String
  shortName : Option String
  previousClose : Option ℚ
  regularMarketChangePercent : Option ℚ
  marketCap : Option PyVal
  fiftyTwoWeekHigh : Option ℚ
  fiftyTwoWeekLow : Option ℚ
  averageVolume : Option PyVal
  currency : Option String

/-- `get_market_data` (`src/tools/market.py` lines 11-64).  The two
yfinance calls (`stock.info`, `stock.history`) are oracle inputs; an
`Except.error` input models the call raising, which the function's
`try/except` converts into an error-marked mapping.  `now` models
`datetime.now().isoformat()`. -/
def get_market_data (info : Except String YfInfo) (hist : Except String (List Bar))
    (now : String) (stock_ticker : String) : PyDict :=
  match info with
  | Except.error e =>
      [("stock_ticker", PyVal.str stock_ticker), ("error", PyVal.str e),
       ("success", PyVal.bool false)]
  | Except.ok info =>
    match hist with
    | Except.error e =>
        [("stock_ticker", PyVal.str stock_ticker), ("error", PyVal.str e),
         ("success", PyVal.bool false)]
    | Except.ok hist =>
      if hist.isEmpty then
        [("error", PyVal.str "无法获取市场数据"), ("success", PyVal.bool false)]
      else
        let latest := hist.getLastD default
        [("stock_ticker", PyVal.str stock_ticker),
         ("stock_name", PyVal.str (info.longName.getD (info.shortName.getD ""))),
         ("current_price", PyVal.num (round2 latest.closeP)),
         ("open", PyVal.num (round2 latest.openP)),
         ("high", PyVal.num (round2 latest.highP)),
         ("low", PyVal.num (round2 latest.lowP)),
         ("volume", PyVal.num (pyInt latest.volume : ℤ)),
         ("change_amount", PyVal.num (round2 (latest.closeP - info.previousClose.getD latest.closeP))),
         ("change_percent", PyVal.num (round2 (info.regularMarketChangePercent.getD 0))),
         ("previous_close", PyVal.num (round2 (info.previousClose.getD 0))),
         ("market_cap", info.marketCap.getD (PyVal.num 0)),
         ("52week_high", PyVal.num (round2 (info.fiftyTwoWeekHigh.getD 0))),
         ("52week_low", PyVal.num (round2 (info.fiftyTwoWeekLow.getD 0))),
         ("avg_volume", info.averageVolume.getD (PyVal.num 0)),
         ("currency", PyVal.str (info.currency.getD "USD")),
         ("timestamp", PyVal.str now),
         ("success", PyVal.bool true)]

/-- `calculate_valuation` (`src/tools/valuation.py` lines 6-68).
`uniform lo hi` is the oracle for `random.uniform(lo, hi)`; `valFail`
models an exception raised anywhere inside the `try` body (the
function's `except` turns it into an error-marked mapping). -/
def calculate_valuation (valFail : Option String) (uniform : ℚ → ℚ → ℚ)
    (stock_ticker : String) (method : String) : PyDict :=
  match valFail with
  | some e =>
      [("stock_ticker", PyVal.str stock_ticker), ("method", PyVal.str method),
       ("error", PyVal.str e), ("success", PyVal.bool false)]
  | Option.none =>
    let result : PyDict :=
      if method = "PE" then
        [("method", PyVal.str "PE (市盈率估值)"),
         ("current_pe", PyVal.num (round2 (uniform 20 35))),
         ("industry_avg_pe", PyVal.num (round2 (uniform 18 30))),
         ("target_price", PyVal.num (round2 (uniform 170 200))),
         ("reasoning", PyVal.str "基于行业平均市盈率计算")]
      else if method = "PB" then
        [("method", PyVal.str "PB (市净率估值)"),
         ("current_pb", PyVal.num (round2 (uniform 5 15))),
         ("industry_avg_pb", PyVal.num (round2 (uniform 4 12))),
         ("target_price", PyVal.num (round2 (uniform 165 195))),
         ("reasoning", PyVal.str "基于账面价值评估")]
      else if method = "DCF" then
        [("method", PyVal.str "DCF (现金流折现)"),
         ("discount_rate", PyVal.num (1 / 10)),
         ("terminal_growth_rate", PyVal.num (3 / 100)),
         ("intrinsic_value", PyVal.num (round2 (uniform 180 220))),
         ("target_price", PyVal.num (round2 (uniform 180 210))),
         ("reasoning", PyVal.str "基于未来现金流折现")]
      else
        [("method", PyVal.str "综合估值"),
         ("target_price", PyVal.num (round2 (uniform 175 205))),
         ("reasoning", PyVal.str "综合多种估值方法")]
    result ++
      [("stock_ticker", PyVal.str stock_ticker),
       ("valuation_date", PyVal.str "2024-01-15"),
       ("success", PyVal.bool true)]

/-- `get_financial_data` (`src/tools/financial.py` lines 12-50).
`fetch` is the oracle for `_fetch_yfinance_data` (that helper catches
all its own exceptions and returns an `error`-keyed mapping on total
failure); an `Except.error` models an exception anywhere in the `try`
body (e.g. `yf.Ticker` itself).  The `query` argument is accepted and
unused, as in the source. -/
def get_financial_data (fetch : Except String PyDict) (now : String)
    (stock_ticker : String) (query : String) : PyDict :=
  match fetch with
  | Except.error e =>
      [("stock_ticker", PyVal.str stock_ticker), ("error", PyVal.str e),
       ("success", PyVal.bool false)]
  | Except.ok real_data =>
      [("stock_ticker", PyVal.str stock_ticker),
       ("real_time_data", PyVal.dict real_data),
       ("data_source", PyVal.str "Yahoo Finance"),
       ("timestamp", PyVal.str now),
       ("success", PyVal.bool (!real_data.isEmpty && !hasKey real_data "error"))]

/-- The bundle of external collaborators a pipeline run depends on:
the LLM generation call (`get_llm(...).invoke(prompt).content`,
`src/core/llm.py`; an `Except.error` models `get_llm` raising or the
invocation failing after its internal retries), the `json.loads`
parser of the Python standard library, the yfinance fetches, the
wall-clock timestamps, and `random.uniform`. -/
structure Collaborators where
  gen : String → Except String String
  parseJson : String → Except String PyDict
  marketInfo : Except String YfInfo
  marketHist : Except String (List Bar)
  marketNow : String
  finFetch : Except String PyDict
  finNow : String
  valFail : Option String
  uniform : ℚ → ℚ → ℚ

/-! ## Shared state (`src/graph/state.py`) and merge semantics -/

/-- `AgentState` (`src/graph/state.py`): the aggregate record for one
request.  `messages` is the accumulate-annotated field; all others are
single-writer. -/
structure AgentState where
  stock_ticker : String
  query : String
  messages : List PyVal
  financial_analysis : String
  market_analysis : String
  valuation_analysis : String
  rag_context : String
  market_data : PyDict
  valuation_data : PyDict
  final_recommendation : PyDict
  next_agent : String
  iteration_count : ℕ

/-- A node's partial update: the dictionary a node returns.  `none`
means the key is absent from the returned dictionary; `messages`
entries are appended on merge (the `Annotated[..., add]` rule). -/
structure AgentUpdate where
  stock_ticker : Option String := Option.none
  query : Option String := Option.none
  messages : List PyVal := []
  financial_analysis : Option String := Option.none
  market_analysis : Option String := Option.none
  valuation_analysis : Option String := Option.none
  rag_context : Option String := Option.none
  market_data : Option PyDict := Option.none
  valuation_data : Option PyDict := Option.none
  final_recommendation : Option PyDict := Option.none
  next_agent : Option String := Option.none
  iteration_count : Option ℕ := Option.none

/-- Modelled from the spec: the executor's merge of a completed node's
partial update into the aggregate (spec §4.1; the engine applying it is
the third-party LangGraph library).  Exclusive fields are replaced when
the update carries them; the accumulate field `messages` is appended. -/
def merge (s : AgentState) (u : AgentUpdate) : AgentState :=
  { stock_ticker := u.stock_ticker.getD s.stock_ticker,
    query := u.query.getD s.query,
    messages := s.messages ++ u.messages,
    financial_analysis := u.financial_analysis.getD s.financial_analysis,
    market_analysis := u.market_analysis.getD s.market_analysis,
    valuation_analysis := u.valuation_analysis.getD s.valuation_analysis,
    rag_context := u.rag_context.getD s.rag_context,
    market_data := u.market_data.getD s.market_data,
    valuation_data := u.valuation_data.getD s.valuation_data,
    final_recommendation := u.final_recommendation.getD s.final_recommendation,
    next_agent := u.next_agent.getD s.next_agent,
    iteration_count := u.iteration_count.getD s.iteration_count }

/-- The initial aggregate built by `main.py` (`analyze_stock`,
lines 152-165). -/
def initialState (stock_ticker query : String) : AgentState :=
  { stock_ticker := stock_ticker,
    query := query,
    messages := [],
    financial_analysis := "",
    market_analysis := "",
    valuation_analysis := "",
    rag_context := "",
    market_data := [],
    valuation_data := [],
    final_recommendation := [],
    next_agent := "",
    iteration_count := 0 }

/-! ## Prompts (`src/graph/nodes.py`; exact surrounding whitespace of
the f-strings is immaterial — prompts are only passed to the opaque
generation oracle). -/

/-- The financial analyst prompt (`nodes.py` lines 28-47). -/
def financialPrompt (stock_ticker query : String) (financial_data : PyDict) : String :=
  "你是一位资深的财务分析师。请基于以下财务数据对 " ++ stock_ticker ++ " 进行深入分析:\n\n"
    ++ "查询: " ++ query ++ "\n\n财务数据:\n"
    ++ pyStr (dictGetD financial_data "data" (PyVal.str "未获取到数据"))
    ++ "\n\n财报上下文:\n"
    ++ pyStr (dictGetD financial_data "rag_context" (PyVal.str "未找到相关财报"))
    ++ "\n\n请从以下角度进行分析:\n1. 收入和盈利能力\n2. 财务健康状况\n3. 现金流状况\n"
    ++ "4. 关键财务比率\n5. 同比和环比趋势\n\n请提供详细、专业的分析。"

/-- The market analyst prompt (`nodes.py` lines 85-100). -/
def marketPrompt (stock_ticker query : String) (market_data : PyDict) : String :=
  "你是一位资深的市场分析师。请基于以下市场数据对 " ++ stock_ticker ++ " 进行分析:\n\n"
    ++ "查询: " ++ query ++ "\n\n市场数据:\n" ++ pyStr (PyVal.dict market_data)
    ++ "\n\n请从以下角度进行分析:\n1. 股价走势和技术指标\n2. 市场情绪和投资者行为\n"
    ++ "3. 行业趋势和竞争格局\n4. 近期新闻和事件影响\n\n请提供详细、专业的分析。"

/-- The valuation expert prompt (`nodes.py` lines 138-154). -/
def valuationPrompt (stock_ticker query : String) (valuation_data : PyDict) : String :=
  "你是一位资深的估值专家。请基于以下估值数据对 " ++ stock_ticker ++ " 进行分析:\n\n"
    ++ "查询: " ++ query ++ "\n\n估值数据:\n" ++ pyStr (PyVal.dict valuation_data)
    ++ "\n\n请从以下角度进行分析:\n1. 相对估值 (P/E, P/B, P/S 等)\n2. 绝对估值 (DCF, DDM 等)\n"
    ++ "3. 与行业平均的对比\n4. 历史估值水平对比\n5. 内在价值评估\n\n请提供详细、专业的分析。"

/-- The supervisor prompt (`nodes.py` lines 192-225), including the
JSON answer template. -/
def supervisorPrompt (stock_ticker query financial_analysis market_analysis valuation_analysis : String) : String :=
  "你是一位资深的投资顾问。请综合以下三位专家的分析,为 " ++ stock_ticker ++ " 提供最终投资建议:\n\n"
    ++ "用户问题: " ++ query ++ "\n\n【财务分析师的观点】\n" ++ financial_analysis
    ++ "\n\n【市场分析师的观点】\n" ++ market_analysis
    ++ "\n\n【估值专家的观点】\n" ++ valuation_analysis
    ++ "\n\n请提供一个结构化的投资建议,包括:\n1. 综合评分 (1-10分,10分最高)\n"
    ++ "2. 投资建议 (强烈买入/买入/持有/卖出/强烈卖出)\n3. 目标价格区间\n4. 止损价格\n"
    ++ "5. 详细推理过程\n6. 主要风险因素 (3-5个)\n7. 主要投资机会 (3-5个)\n\n"
    ++ "请以 JSON 格式返回,格式如下:\n\x7b\n    \"score\": 8,\n    \"recommendation\": \"买入\",\n"
    ++ "    \"target_price\": 180.5,\n    \"stop_loss\": 150.0,\n    \"reasoning\": \"详细推理...\",\n"
    ++ "    \"risks\": [\"风险1\", \"风险2\", \"风险3\"],\n    \"opportunities\": [\"机会1\", \"机会2\", \"机会3\"]\n\x7d"

/-! ## Graph nodes (`src/graph/nodes.py`) -/

/-- `financial_agent_node` (`nodes.py` lines 10-64).  Exceptions of the
generation collaborator are the `try` body's only possible raisers (the
data tool never raises, see `get_financial_data`); the `except` branch
returns the degraded update of lines 61-64. -/
def financial_agent_node (C : Collaborators) (state : AgentState) : AgentUpdate :=
  let financial_data := get_financial_data C.finFetch C.finNow state.stock_ticker state.query
  match C.gen (financialPrompt state.stock_ticker state.query financial_data) with
  | Except.ok analysis =>
      { financial_analysis := some analysis,
        rag_context := some (getStrD financial_data "rag_context" "") }
  | Except.error e =>
      { financial_analysis := some ("财务分析失败: " ++ e),
        rag_context := some "" }

/-- `market_agent_node` (`nodes.py` lines 67-117). -/
def market_agent_node (C : Collaborators) (state : AgentState) : AgentUpdate :=
  let market_data := get_market_data C.marketInfo C.marketHist C.marketNow state.stock_ticker
  match C.gen (marketPrompt state.stock_ticker state.query market_data) with
  | Except.ok analysis =>
      { market_analysis := some analysis,
        market_data := some market_data }
  | Except.error e =>
      { market_analysis := some ("市场分析失败: " ++ e),
        market_data := some [] }

/-- `valuation_agent_node` (`nodes.py` lines 120-171). -/
def valuation_agent_node (C : Collaborators) (state : AgentState) : AgentUpdate :=
  let valuation_data := calculate_valuation C.valFail C.uniform state.stock_ticker "PE"
  match C.gen (valuationPrompt state.stock_ticker state.query valuation_data) with
  | Except.ok analysis =>
      { valuation_analysis := some analysis,
        valuation_data := some valuation_data }
  | Except.error e =>
      { valuation_analysis := some ("估值分析失败: " ++ e),
        valuation_data := some [] }

/-! ## Recommendation extraction (`nodes.py` lines 229-254) -/

/-- The match of `re.search(r'\x7b[\s\S]*\x7d', response)`: with a
greedy unbounded middle, the regex matches from the first opening brace
that has some closing brace after it, through the last closing brace of
the text; `none` when no such pair exists. -/
def jsonSpan (cs : List Char) : Option (List Char) :=
  let t := cs.dropWhile (fun c => c != '{')
  let u := (t.reverse.dropWhile (fun c => c != '}')).reverse
  if u.length < 2 then Option.none else some u

/-- The fallback object of `nodes.py` lines 239-247, used when the
response contains no brace-delimited span. -/
def defaultRecommendation (response : String) : PyDict :=
  [("score", PyVal.num 5),
   ("recommendation", PyVal.str "持有"),
   ("target_price", PyVal.none),
   ("stop_loss", PyVal.none),
   ("reasoning", PyVal.str response),
   ("risks", PyVal.list [PyVal.str "数据解析失败"]),
   ("opportunities", PyVal.list [])]

/-- The fallback object of the supervisor's outer `except` branch
(`nodes.py` lines 258-266), used when generation or `json.loads`
raises. -/
def errorRecommendation (e : String) : PyDict :=
  [("score", PyVal.num 5),
   ("recommendation", PyVal.str "持有"),
   ("reasoning", PyVal.str ("分析失败: " ++ e)),
   ("risks", PyVal.list [PyVal.str "分析失败"]),
   ("opportunities", PyVal.list [])]

/-- Lines 234-247 of `nodes.py`: locate the regex span and parse it
with `json.loads` (the oracle `parseJson`); no span yields the default
structure; a parse exception propagates (to the node's outer
`except`). -/
def extract_recommendation (parseJson : String → Except String PyDict)
    (response : String) : Except String PyDict :=
  match jsonSpan response.data with
  | some span => parseJson (String.mk span)
  | Option.none => Except.ok (defaultRecommendation response)

/-- `supervisor_agent_node` (`nodes.py` lines 174-266). -/
def supervisor_agent_node (C : Collaborators) (state : AgentState) : AgentUpdate :=
  let prompt := supervisorPrompt state.stock_ticker state.query
    state.financial_analysis state.market_analysis state.valuation_analysis
  match C.gen prompt with
  | Except.error e => { final_recommendation := some (errorRecommendation e) }
  | Except.ok response =>
      match extract_recommendation C.parseJson response with
      | Except.ok recommendation => { final_recommendation := some recommendation }
      | Except.error e => { final_recommendation := some (errorRecommendation e) }

/-! ## Declared topology (`src/graph/workflow.py`) and the executor -/

/-- The four graph nodes registered by `create_investment_workflow`
(the `END` marker reached from the supervisor is left implicit: it runs
no code). -/
inductive GNode where
  | financial
  | market
  | valuation
  | supervisor
deriving DecidableEq

/-- The directed edges declared in `workflow.py` lines 35-50, in
declaration order: the fan-in of the three analysts into the
supervisor, then the chain `financial → market → valuation` (the
`supervisor → END` edge is implicit). -/
def workflowEdges : List (GNode × GNode) :=
  [(GNode.financial, GNode.supervisor),
   (GNode.market, GNode.supervisor),
   (GNode.valuation, GNode.supervisor),
   (GNode.financial, GNode.market),
   (GNode.market, GNode.valuation)]

/-- `workflow.set_entry_point("financial_agent")` (declared twice in
the source, with the same value). -/
def entryPoint : GNode := GNode.financial

/-- An execution order respects the declared edges when every edge's
source runs strictly before its target. -/
def respectsEdges (l : List GNode) : Prop :=
  ∀ e ∈ workflowEdges, l.indexOf e.1 < l.indexOf e.2

instance (l : List GNode) : Decidable (respectsEdges l) := by
  unfold respectsEdges
  exact List.decidableBAll _ _

/-- The function each registered node name dispatches to. -/
def nodeFn : GNode → Collaborators → AgentState → AgentUpdate
  | GNode.financial => financial_agent_node
  | GNode.market => market_agent_node
  | GNode.valuation => valuation_agent_node
  | GNode.supervisor => supervisor_agent_node

/-- Modelled from the spec: the executor (LangGraph's engine, a
third-party library) resolves a topological order over the declared
edges and runs the nodes one at a time, merging each completed node's
partial update into the aggregate before the next node reads it
(spec §4.4).  `runTrace` also records each node's partial update. -/
def runTrace : List GNode → Collaborators → AgentState →
    List (GNode × AgentUpdate) × AgentState
  | [], _, s => ([], s)
  | n :: rest, C, s =>
      let u := nodeFn n C s
      let r := runTrace rest C (merge s u)
      ((n, u) :: r.1, r.2)

/-- The final aggregate of a run. -/
def runWorkflow (order : List GNode) (C : Collaborators) (s : AgentState) : AgentState :=
  (runTrace order C s).2

/-- The sequential order the declared topology collapses to. -/
def topoOrder : List GNode :=
  [GNode.financial, GNode.market, GNode.valuation, GNode.supervisor]

/-! ## Response construction (`main.py` `analyze_stock`, lines 136-197,
together with the pydantic model `AnalysisResponse` of
`src/core/models.py` lines 21-107) -/

/-- The validated `AnalysisResponse` (`src/core/models.py`): optional
fields are `Option`s; `score` is a validated float; `target_price` and
`stop_loss` are float-or-text (held as a validated `PyVal`); `risks`
and `opportunities` are string lists.  The wall-clock `execution_time`
and `timestamp` are outside the model. -/
structure AnalysisResponse where
  stock_ticker : String
  query : String
  financial_analysis : Option String
  market_analysis : Option String
  valuation_analysis : Option String
  recommendation : Option String
  score : Option ℚ
  target_price : Option PyVal
  stop_loss : Option PyVal
  reasoning : Option String
  risks : Option (List String)
  opportunities : Option (List String)

/-- Pydantic validation of an `Optional[str]` field: `None` or a
string; any other runtime value raises a `ValidationError`. -/
def validateOptStr (field : String) : PyVal → Except String (Option String)
  | PyVal.none => Except.ok Option.none
  | PyVal.str s => Except.ok (some s)
  | _ => Except.error (field ++ ": Input should be a valid string")

/-- Pydantic validation of `score: Optional[float] = Field(None, ge=1,
le=10)` (`models.py` line 34): `None` passes, a number must lie in
[1, 10], and a non-numeric value raises.  (Pydantic's lax coercion of
numeric strings to float is not modelled; no statement below feeds a
string score.) -/
def validateScore : PyVal → Except String (Option ℚ)
  | PyVal.none => Except.ok Option.none
  | PyVal.num q =>
      if 1 ≤ q ∧ q ≤ 10 then Except.ok (some q)
      else Except.error "score: Input should be between 1 and 10"
  | _ => Except.error "score: Input should be a valid number"

/-- Pydantic validation of `Optional[Union[float, str]]` for the two
price fields, after the `mode='before'` validator `parse_price` has
run (`models.py` lines 35-36, 47-100): the normalized value must be
`None`, a number, or a string. -/
def validatePrice (field : String) (v : PyVal) : Except String (Option PyVal) :=
  match parse_price v with
  | PyVal.none => Except.ok Option.none
  | PyVal.num q => Except.ok (some (PyVal.num q))
  | PyVal.str s => Except.ok (some (PyVal.str s))
  | _ => Except.error (field ++ ": Input should be a valid number or string")

/-- Elements of a Python list coerced to `List[str]`, when they are
all strings. -/
def asStrList : List PyVal → Option (List String)
  | [] => some []
  | PyVal.str s :: rest => (asStrList rest).map (fun l => s :: l)
  | _ => Option.none

/-- Pydantic validation of `Optional[List[str]]` for `risks` and
`opportunities` (`models.py` lines 40-41). -/
def validateStrList (field : String) : PyVal → Except String (Option (List String))
  | PyVal.none => Except.ok Option.none
  | PyVal.list l =>
      match asStrList l with
      | some ss => Except.ok (some ss)
      | Option.none => Except.error (field ++ ": Input should be a valid list of strings")
  | _ => Except.error (field ++ ": Input should be a valid list")

/-- The `AnalysisResponse(...)` construction of `main.py` lines
176-190: extract each field from the final recommendation and run the
pydantic validators; any validation failure raises (an `Except.error`
here). -/
def buildAnalysisResponse (stock_ticker query : String) (result : AgentState) :
    Except String AnalysisResponse := do
  let final_rec := result.final_recommendation
  let recommendation ← validateOptStr "recommendation" (dictGetD final_rec "recommendation" PyVal.none)
  let score ← validateScore (dictGetD final_rec "score" PyVal.none)
  let target_price ← validatePrice "target_price" (dictGetD final_rec "target_price" PyVal.none)
  let stop_loss ← validatePrice "stop_loss" (dictGetD final_rec "stop_loss" PyVal.none)
  let reasoning ← validateOptStr "reasoning" (dictGetD final_rec "reasoning" PyVal.none)
  let risks ← validateStrList "risks" (dictGetD final_rec "risks" PyVal.none)
  let opportunities ← validateStrList "opportunities" (dictGetD final_rec "opportunities" PyVal.none)
  Except.ok
    { stock_ticker := stock_ticker,
      query := query,
      financial_analysis := some result.financial_analysis,
      market_analysis := some result.market_analysis,
      valuation_analysis := some result.valuation_analysis,
      recommendation := recommendation,
      score := score,
      target_price := target_price,
      stop_loss := stop_loss,
      reasoning := reasoning,
      risks := risks,
      opportunities := opportunities }

/-- The full-pipeline entry point `analyze_stock` (`main.py` lines
136-197): build the initial aggregate, run the workflow, construct the
validated response; any exception — in practice a pydantic
`ValidationError` from the response construction — is caught by the
`except` of lines 195-197 and surfaces as an HTTP 500 whose detail is
`分析失败: ` followed by the error text. -/
def analyze_stock (C : Collaborators) (stock_ticker query : String) :
    Except String AnalysisResponse :=
  match buildAnalysisResponse stock_ticker query
      (runWorkflow topoOrder C (initialState stock_ticker query)) with
  | Except.ok resp => Except.ok resp
  | Except.error msg => Except.error ("分析失败: " ++ msg)

/-- The response the pipeline produces on the total-failure path. -/
def degradedResponse (stock_ticker query e : String) : AnalysisResponse :=
  { stock_ticker := stock_ticker,
    query := query,
    financial_analysis := some ("财务分析失败: " ++ e),
    market_analysis := some ("市场分析失败: " ++ e),
    valuation_analysis := some ("估值分析失败: " ++ e),
    recommendation := some "持有",
    score := some 5,
    target_price := Option.none,
    stop_loss := Option.none,
    reasoning := some ("分析失败: " ++ e),
    risks := some ["分析失败"],
    opportunities := some [] }

/-! ## Sample collaborator bundles (concrete instantiations used by
closed-form checks) -/

/-- A collaborator bundle in which every external call fails. -/
def allFailC : Collaborators :=
  { gen := fun _ => Except.error "boom",
    parseJson := fun _ => Except.error "boom",
    marketInfo := Except.error "boom",
    marketHist := Except.error "boom",
    marketNow := "2024-01-15T00:00:00",
    finFetch := Except.error "boom",
    finNow := "2024-01-15T00:00:00",
    valFail := some "boom",
    uniform := fun _ _ => 0 }

/-- A collaborator bundle whose generation call returns a fixed text
with no brace-delimited span. -/
def noJsonC : Collaborators :=
  { allFailC with gen := fun _ => Except.ok "abc" }

/-- A collaborator bundle whose generation call succeeds with a braced
span that parses to a recommendation carrying an out-of-range score. -/
def badScoreC : Collaborators :=
  { allFailC with
    gen := fun _ => Except.ok "\x7b\"score\": 99\x7d",
    parseJson := fun _ => Except.ok [("score", PyVal.num 99)] }

/-! ## Node update shape lemmas -/

/-- The financial node's update carries exactly its two owned keys. -/
theorem financial_shape (C : Collaborators) (s : AgentState) :
    ∃ fa rc, financial_agent_node C s =
      { financial_analysis := some fa, rag_context := some rc } := by
  simp only [financial_agent_node]
  cases C.gen (financialPrompt s.stock_ticker s.query
      (get_financial_data C.finFetch C.finNow s.stock_ticker s.query)) <;>
    exact ⟨_, _, rfl⟩

/-- The market node's update carries exactly its two owned keys. -/
theorem market_shape (C : Collaborators) (s : AgentState) :
    ∃ ma md, market_agent_node C s =
      { market_analysis := some ma, market_data := some md } := by
  simp only [market_agent_node]
  cases C.gen (marketPrompt s.stock_ticker s.query
      (get_market_data C.marketInfo C.marketHist C.marketNow s.stock_ticker)) <;>
    exact ⟨_, _, rfl⟩

/-- The valuation node's update carries exactly its two owned keys. -/
theorem valuation_shape (C : Collaborators) (s : AgentState) :
    ∃ va vd, valuation_agent_node C s =
      { valuation_analysis := some va, valuation_data := some vd } := by
  simp only [valuation_agent_node]
  cases C.gen (valuationPrompt s.stock_ticker s.query
      (calculate_valuation C.valFail C.uniform s.stock_ticker "PE")) <;>
    exact ⟨_, _, rfl⟩

/-- The supervisor's update carries exactly `final_recommendation`. -/
theorem supervisor_shape (C : Collaborators) (s : AgentState) :
    ∃ rec, supervisor_agent_node C s = { final_recommendation := some rec } := by
  simp only [supervisor_agent_node]
  cases C.gen (supervisorPrompt s.stock_ticker s.query
      s.financial_analysis s.market_analysis s.valuation_analysis) with
  | error e => exact ⟨_, rfl⟩
  | ok response =>
      dsimp only
      cases extract_recommendation C.parseJson response with
      | ok rec => exact ⟨_, rfl⟩
      | error e => exact ⟨_, rfl⟩

/-! ## Topological-order resolution -/

/-- `dropWhile` only returns a list whose head falsifies the predicate. -/
theorem dropWhile_head_false (p : Char → Bool) (l : List Char) (c : Char) (rest : List Char)
    (h : l.dropWhile p = c :: rest) : p c = false := by
  induction l with
  | nil => simp [List.dropWhile] at h
  | cons a l ih =>
      rw [List.dropWhile_cons] at h
      by_cases hp : p a
      · rw [if_pos hp] at h; exact ih h
      · rw [if_neg hp] at h
        injection h with h1 h2
        subst h1
        exact Bool.eq_false_iff.mpr hp

/-- Any execution order consistent with the declared topology is the
sequential order: the chain edges on top of the fan-in force
financial, market, valuation, supervisor. -/
theorem topo_unique (l : List GNode) (hp : l.Perm topoOrder)
    (hr : respectsEdges l) : l = topoOrder := by
  have hlen : l.length = 4 := hp.length_eq
  have hcf := hp.count_eq GNode.financial
  have hcm := hp.count_eq GNode.market
  have hcv := hp.count_eq GNode.valuation
  have hcs := hp.count_eq GNode.supervisor
  rcases l with _ | ⟨a, _ | ⟨b, _ | ⟨c, _ | ⟨d, _ | ⟨e, t⟩⟩⟩⟩⟩
  · simp at hlen
  · simp at hlen
  · simp at hlen
  · simp at hlen
  · cases a <;> cases b <;> cases c <;> cases d <;>
      first
        | rfl
        | exact absurd hr (by decide)
        | exact absurd hcf (by decide)
        | exact absurd hcm (by decide)
        | exact absurd hcv (by decide)
        | exact absurd hcs (by decide)
  · simp only [List.length_cons] at hlen
    omega

/-! ## Claims -/

/-- Claim C3: price normalization keeps every numeric input as-is (as a
float); for every string input the currency character class is
stripped, all numeric substrings are extracted, and the result is their
arithmetic mean rounded to 2 decimal places when at least one number is
found, the original text verbatim when none is; in particular
"270-285美元" maps to 277.5, "$280" to 280.0, "无法确定" to itself, and
255.0 to 255.0. -/
theorem claim_C3 :
    parse_price (PyVal.str "270-285美元") = PyVal.num 277.5
  ∧ parse_price (PyVal.str "$280") = PyVal.num 280
  ∧ parse_price (PyVal.str "无法确定") = PyVal.str "无法确定"
  ∧ parse_price (PyVal.num 255) = PyVal.num 255
  ∧ (∀ q : ℚ, parse_price (PyVal.num q) = PyVal.num q)
  ∧ (∀ s : String, scanNumbers (s.data.filter (fun c => !(isStripChar c))) = [] →
      parse_price (PyVal.str s) = PyVal.str s)
  ∧ (∀ s : String, scanNumbers (s.data.filter (fun c => !(isStripChar c))) ≠ [] →
      parse_price (PyVal.str s) = PyVal.num (round2
        (((scanNumbers (s.data.filter (fun c => !(isStripChar c)))).map tokenToRat).sum
          / ((scanNumbers (s.data.filter (fun c => !(isStripChar c)))).length : ℚ)))) := by
  refine ⟨?_, ?_, rfl, rfl, fun q => rfl, ?_, ?_⟩
  · have h0 : parse_price (PyVal.str "270-285美元")
        = PyVal.num (round2 ((ratOfParts 270 0 0 + (ratOfParts 285 0 0 + 0)) / ((2 : ℕ) : ℚ))) := rfl
    rw [h0, round2_of_mul_eq _ 27750 (by norm_num [ratOfParts])]
    norm_num
  · have h0 : parse_price (PyVal.str "$280")
        = PyVal.num (round2 ((ratOfParts 280 0 0 + 0) / ((1 : ℕ) : ℚ))) := rfl
    rw [h0, round2_of_mul_eq _ 28000 (by norm_num [ratOfParts])]
    norm_num
  · intro s h
    simp [parse_price, h]
  · intro s h
    simp [parse_price, h]

/-- Witness for C3 at concrete inputs: a numberless string survives
verbatim and a two-number string is averaged. -/
theorem claim_C3_witness :
    parse_price (PyVal.str "abc") = PyVal.str "abc"
  ∧ parse_price (PyVal.str "10-20") = PyVal.num (round2
      (((scanNumbers ("10-20".data.filter (fun c => !(isStripChar c)))).map tokenToRat).sum
        / ((scanNumbers ("10-20".data.filter (fun c => !(isStripChar c)))).length : ℚ))) :=
  ⟨claim_C3.2.2.2.2.2.1 "abc" rfl, claim_C3.2.2.2.2.2.2 "10-20" (by decide)⟩

/-- Claim C10: price normalization is idempotent on every input value. -/
theorem claim_C10 : ∀ v : PyVal, parse_price (parse_price v) = parse_price v := by
  intro v
  cases v with
  | none => rfl
  | bool b => rfl
  | num q => rfl
  | list l => rfl
  | dict d => rfl
  | str s =>
      by_cases h : scanNumbers (s.data.filter (fun c => !(isStripChar c))) = []
      · have h1 : parse_price (PyVal.str s) = PyVal.str s := by simp [parse_price, h]
        rw [h1, h1]
      · have h1 : parse_price (PyVal.str s) = PyVal.num (round2
            (((scanNumbers (s.data.filter (fun c => !(isStripChar c)))).map tokenToRat).sum
              / ((scanNumbers (s.data.filter (fun c => !(isStripChar c)))).length : ℚ))) := by
          simp [parse_price, h]
        rw [h1]
        rfl

/-- Claim C5: the declared topology simultaneously contains the fan-in
of the three analysts into the supervisor and the linear chain
financial → market → valuation, and the only execution order over the
union of these edges is the strict sequence financial, market,
valuation, supervisor — so the supervisor runs last, after all three
analysts. -/
theorem claim_C5 :
    ((GNode.financial, GNode.supervisor) ∈ workflowEdges
      ∧ (GNode.market, GNode.supervisor) ∈ workflowEdges
      ∧ (GNode.valuation, GNode.supervisor) ∈ workflowEdges)
  ∧ ((GNode.financial, GNode.market) ∈ workflowEdges
      ∧ (GNode.market, GNode.valuation) ∈ workflowEdges)
  ∧ respectsEdges topoOrder
  ∧ topoOrder.getLast? = some GNode.supervisor
  ∧ (∀ l : List GNode, l.Perm topoOrder → respectsEdges l → l = topoOrder) :=
  ⟨by decide, by decide, by decide, by decide, topo_unique⟩

/-- Witness for C5: the sequential order satisfies the hypotheses and
is picked out uniquely. -/
theorem claim_C5_witness :
    [GNode.financial, GNode.market, GNode.valuation, GNode.supervisor] = topoOrder :=
  claim_C5.2.2.2.2 [GNode.financial, GNode.market, GNode.valuation, GNode.supervisor]
    (List.Perm.refl topoOrder) (by decide)

/-- Claim C1 (amended): when the generation collaborator fails, each
analysis node catches the failure and returns exactly its degraded
update: the owned text field is a deterministic failure-marker string
naming the cause category followed by the collaborator's error text
(the ticker is NOT part of the marker), the owned structured field is
the empty mapping, and no other field occurs in the update, so sibling
fields and the response structure are unaffected; the node (a total
function here) raises nothing. -/
theorem claim_C1 (C : Collaborators) (s : AgentState) (e : String)
    (hgen : ∀ p, C.gen p = Except.error e) :
    financial_agent_node C s =
      { financial_analysis := some ("财务分析失败: " ++ e), rag_context := some "" }
  ∧ market_agent_node C s =
      { market_analysis := some ("市场分析失败: " ++ e), market_data := some [] }
  ∧ valuation_agent_node C s =
      { valuation_analysis := some ("估值分析失败: " ++ e), valuation_data := some [] } := by
  refine ⟨?_, ?_, ?_⟩ <;>
    simp [financial_agent_node, market_agent_node, valuation_agent_node, hgen]

/-- Witness for C1 under the all-failing collaborator bundle. -/
theorem claim_C1_witness :
    market_agent_node allFailC (initialState "AAPL" "值得投资吗") =
      { market_analysis := some ("市场分析失败: " ++ "boom"), market_data := some [] } :=
  (claim_C1 allFailC (initialState "AAPL" "值得投资吗") "boom" (fun _ => rfl)).2.1

/-- Counterexample to C1 as stated: at ticker "AAPL" with a failing
collaborator, the market node's marker string is "市场分析失败: boom",
which does not contain the ticker — the marker names the cause, not
the ticker. -/
theorem claim_C1_counterexample :
    (market_agent_node allFailC (initialState "AAPL" "值得投资吗")).market_analysis
      = some "市场分析失败: boom"
  ∧ ¬ ("AAPL".data <:+: "市场分析失败: boom".data) :=
  ⟨rfl, by decide⟩

/-- Claim C9 (amended): the structured-data tools are total functions
(no exception reaches the calling node); every caught exception and the
empty-price-history case produce a mapping with an "error" entry and
"success" false; the financial tool's non-raising inner failure path
(the fetch helper returns an error-marked or empty mapping) however
yields "success" false with the error nested under "real_time_data"
and NO top-level "error" entry. -/
theorem claim_C9 (t now q e method : String) (i : YfInfo) (hist : List Bar)
    (uniform : ℚ → ℚ → ℚ) (d : PyDict) :
    (dictGet (get_market_data (Except.error e) (Except.ok hist) now t) "error"
        = some (PyVal.str e)
      ∧ dictGet (get_market_data (Except.error e) (Except.ok hist) now t) "success"
        = some (PyVal.bool false))
  ∧ (dictGet (get_market_data (Except.ok i) (Except.error e) now t) "error"
        = some (PyVal.str e)
      ∧ dictGet (get_market_data (Except.ok i) (Except.error e) now t) "success"
        = some (PyVal.bool false))
  ∧ (dictGet (get_market_data (Except.ok i) (Except.ok []) now t) "error"
        = some (PyVal.str "无法获取市场数据")
      ∧ dictGet (get_market_data (Except.ok i) (Except.ok []) now t) "success"
        = some (PyVal.bool false))
  ∧ (dictGet (calculate_valuation (some e) uniform t method) "error" = some (PyVal.str e)
      ∧ dictGet (calculate_valuation (some e) uniform t method) "success"
        = some (PyVal.bool false))
  ∧ (dictGet (get_financial_data (Except.error e) now t q) "error" = some (PyVal.str e)
      ∧ dictGet (get_financial_data (Except.error e) now t q) "success"
        = some (PyVal.bool false))
  ∧ (dictGet (get_financial_data (Except.ok d) now t q) "error" = Option.none
      ∧ dictGet (get_financial_data (Except.ok d) now t q) "success"
        = some (PyVal.bool (!d.isEmpty && !hasKey d "error"))) :=
  ⟨⟨rfl, rfl⟩, ⟨rfl, rfl⟩, ⟨rfl, rfl⟩, ⟨rfl, rfl⟩, ⟨rfl, rfl⟩, ⟨rfl, rfl⟩⟩

/-- Counterexample to C9 as stated: when the financial fetch helper
reports failure via an error-marked mapping, the tool's result carries
"success" false but no top-level "error" entry. -/
theorem claim_C9_counterexample :
    dictGet (get_financial_data (Except.ok [("error", PyVal.str "boom")])
        "2024-01-15T00:00:00" "AAPL" "值得投资吗") "success" = some (PyVal.bool false)
  ∧ dictGet (get_financial_data (Except.ok [("error", PyVal.str "boom")])
        "2024-01-15T00:00:00" "AAPL" "值得投资吗") "error" = Option.none :=
  ⟨rfl, rfl⟩

/-- Splitting a list around the reversed `dropWhile` of its reverse. -/
theorem rev_drop_decompose (q : Char → Bool) (t : List Char) :
    t = (t.reverse.dropWhile q).reverse ++ (t.reverse.takeWhile q).reverse := by
  conv_lhs => rw [← List.reverse_reverse t, ← List.takeWhile_append_dropWhile q t.reverse]
  rw [List.reverse_append]

/-- A successful `jsonSpan` match runs from the text's first opening
brace through its last closing brace: nothing before the span contains
an opening brace, nothing after it contains a closing brace, and the
span starts with an opening and ends with a closing brace. -/
theorem jsonSpan_decompose (cs u : List Char) (h : jsonSpan cs = some u) :
    ∃ pre post, cs = pre ++ u ++ post ∧ '{' ∉ pre ∧ '}' ∉ post
      ∧ u.head? = some '{' ∧ u.getLast? = some '}' := by
  simp only [jsonSpan] at h
  split at h
  · cases h
  · rename_i hlen
    injection h with h0
    subst h0
    have h2 : List.dropWhile (fun c => c != '{') cs
        = (List.dropWhile (fun c => c != '}') (List.dropWhile (fun c => c != '{') cs).reverse).reverse
          ++ (List.takeWhile (fun c => c != '}') (List.dropWhile (fun c => c != '{') cs).reverse).reverse :=
      rev_drop_decompose _ _
    refine ⟨cs.takeWhile (fun c => c != '{'),
      (List.takeWhile (fun c => c != '}') (List.dropWhile (fun c => c != '{') cs).reverse).reverse,
      ?_, ?_, ?_, ?_, ?_⟩
    · conv_lhs => rw [← List.takeWhile_append_dropWhile (fun c => c != '{') cs, h2]
      rw [List.append_assoc]
    · intro hmem
      have := List.mem_takeWhile_imp hmem
      simp at this
    · intro hmem
      rw [List.mem_reverse] at hmem
      have := List.mem_takeWhile_imp hmem
      simp at this
    · rcases hu : (List.dropWhile (fun c => c != '}')
          (List.dropWhile (fun c => c != '{') cs).reverse).reverse with _ | ⟨x, u'⟩
      · rw [hu] at hlen; simp at hlen
      · rw [hu] at h2
        rw [List.cons_append] at h2
        have hx := dropWhile_head_false (fun c => c != '{') cs x _ h2
        simpa using hx
    · rw [List.getLast?_reverse]
      rcases hw : List.dropWhile (fun c => c != '}')
          (List.dropWhile (fun c => c != '{') cs).reverse with _ | ⟨y, w'⟩
      · rw [hw] at hlen; simp at hlen
      · have hy := dropWhile_head_false (fun c => c != '}')
          (List.dropWhile (fun c => c != '{') cs).reverse y w' hw
        simpa using hy

/-- Claim C2 (amended): on a successful generation call the supervisor
locates the span from the first opening brace to the LAST closing brace
of the text (no balance check), hands exactly that span to the parser,
and adopts the parsed object verbatim on success; when no span exists
the fallback has the neutral label, the midpoint score, reasoning equal
to the full raw text, empty opportunities, null prices — and risks
equal to the one-element parse-failure marker list ["数据解析失败"]
(not the empty sequence); a parse error on a found span escapes to the
node's outer handler, whose fallback has reasoning "分析失败: <error>"
(not the raw text) and risks ["分析失败"]. -/
theorem claim_C2 (C : Collaborators) (s : AgentState) (response : String)
    (hgen : C.gen (supervisorPrompt s.stock_ticker s.query
      s.financial_analysis s.market_analysis s.valuation_analysis) = Except.ok response) :
    (jsonSpan response.data = Option.none →
       supervisor_agent_node C s
         = { final_recommendation := some (defaultRecommendation response) }
       ∧ dictGet (defaultRecommendation response) "score" = some (PyVal.num 5)
       ∧ dictGet (defaultRecommendation response) "recommendation" = some (PyVal.str "持有")
       ∧ dictGet (defaultRecommendation response) "target_price" = some PyVal.none
       ∧ dictGet (defaultRecommendation response) "stop_loss" = some PyVal.none
       ∧ dictGet (defaultRecommendation response) "reasoning" = some (PyVal.str response)
       ∧ dictGet (defaultRecommendation response) "risks"
           = some (PyVal.list [PyVal.str "数据解析失败"])
       ∧ dictGet (defaultRecommendation response) "opportunities" = some (PyVal.list []))
  ∧ (∀ span rec, jsonSpan response.data = some span →
       C.parseJson (String.mk span) = Except.ok rec →
       supervisor_agent_node C s = { final_recommendation := some rec })
  ∧ (∀ span err, jsonSpan response.data = some span →
       C.parseJson (String.mk span) = Except.error err →
       supervisor_agent_node C s = { final_recommendation := some (errorRecommendation err) })
  ∧ (∀ span, jsonSpan response.data = some span →
       ∃ pre post, response.data = pre ++ span ++ post ∧ '{' ∉ pre ∧ '}' ∉ post
         ∧ span.head? = some '{' ∧ span.getLast? = some '}') := by
  refine ⟨?_, ?_, ?_, ?_⟩
  · intro hspan
    refine ⟨?_, rfl, rfl, rfl, rfl, rfl, rfl, rfl⟩
    simp [supervisor_agent_node, extract_recommendation, hgen, hspan]
  · intro span rec hspan hparse
    simp [supervisor_agent_node, extract_recommendation, hgen, hspan, hparse]
  · intro span err hspan hparse
    simp [supervisor_agent_node, extract_recommendation, hgen, hspan, hparse]
  · intro span hspan
    exact jsonSpan_decompose response.data span hspan

/-- Witness for C2: a braceless generation text falls back to the
default structure. -/
theorem claim_C2_witness :
    supervisor_agent_node noJsonC (initialState "AAPL" "值得投资吗")
      = { final_recommendation := some (defaultRecommendation "abc") } :=
  ((claim_C2 noJsonC (initialState "AAPL" "值得投资吗") "abc" rfl).1 rfl).1

/-- Counterexample to C2 as stated: on delimiter-free input the
fallback's risks sequence is the one-element list ["数据解析失败"],
not the empty sequence the claim requires. -/
theorem claim_C2_counterexample :
    (supervisor_agent_node noJsonC (initialState "AAPL" "值得投资吗")).final_recommendation
      = some (defaultRecommendation "abc")
  ∧ dictGet (defaultRecommendation "abc") "risks"
      = some (PyVal.list [PyVal.str "数据解析失败"])
  ∧ PyVal.list [PyVal.str "数据解析失败"] ≠ PyVal.list [] := by
  refine ⟨rfl, rfl, ?_⟩
  simp

/-- Claim C7: every node's partial update carries only the fields that
node owns (financial: financial_analysis and rag_context; market:
market_analysis and market_data; valuation: valuation_analysis and
valuation_data; supervisor: final_recommendation); in particular no
update ever carries stock_ticker, query, or messages, so merging any
node's update leaves the request inputs unchanged. -/
theorem claim_C7 (C : Collaborators) (s : AgentState) :
    ((financial_agent_node C s).stock_ticker = Option.none
      ∧ (financial_agent_node C s).query = Option.none
      ∧ (financial_agent_node C s).messages = []
      ∧ (financial_agent_node C s).market_analysis = Option.none
      ∧ (financial_agent_node C s).valuation_analysis = Option.none
      ∧ (financial_agent_node C s).market_data = Option.none
      ∧ (financial_agent_node C s).valuation_data = Option.none
      ∧ (financial_agent_node C s).final_recommendation = Option.none
      ∧ (financial_agent_node C s).next_agent = Option.none
      ∧ (financial_agent_node C s).iteration_count = Option.none
      ∧ (financial_agent_node C s).financial_analysis.isSome = true
      ∧ (financial_agent_node C s).rag_context.isSome = true)
  ∧ ((market_agent_node C s).stock_ticker = Option.none
      ∧ (market_agent_node C s).query = Option.none
      ∧ (market_agent_node C s).messages = []
      ∧ (market_agent_node C s).financial_analysis = Option.none
      ∧ (market_agent_node C s).valuation_analysis = Option.none
      ∧ (market_agent_node C s).rag_context = Option.none
      ∧ (market_agent_node C s).valuation_data = Option.none
      ∧ (market_agent_node C s).final_recommendation = Option.none
      ∧ (market_agent_node C s).next_agent = Option.none
      ∧ (market_agent_node C s).iteration_count = Option.none
      ∧ (market_agent_node C s).market_analysis.isSome = true
      ∧ (market_agent_node C s).market_data.isSome = true)
  ∧ ((valuation_agent_node C s).stock_ticker = Option.none
      ∧ (valuation_agent_node C s).query = Option.none
      ∧ (valuation_agent_node C s).messages = []
      ∧ (valuation_agent_node C s).financial_analysis = Option.none
      ∧ (valuation_agent_node C s).market_analysis = Option.none
      ∧ (valuation_agent_node C s).rag_context = Option.none
      ∧ (valuation_agent_node C s).market_data = Option.none
      ∧ (valuation_agent_node C s).final_recommendation = Option.none
      ∧ (valuation_agent_node C s).next_agent = Option.none
      ∧ (valuation_agent_node C s).iteration_count = Option.none
      ∧ (valuation_agent_node C s).valuation_analysis.isSome = true
      ∧ (valuation_agent_node C s).valuation_data.isSome = true)
  ∧ ((supervisor_agent_node C s).stock_ticker = Option.none
      ∧ (supervisor_agent_node C s).query = Option.none
      ∧ (supervisor_agent_node C s).messages = []
      ∧ (supervisor_agent_node C s).financial_analysis = Option.none
      ∧ (supervisor_agent_node C s).market_analysis = Option.none
      ∧ (supervisor_agent_node C s).valuation_analysis = Option.none
      ∧ (supervisor_agent_node C s).rag_context = Option.none
      ∧ (supervisor_agent_node C s).market_data = Option.none
      ∧ (supervisor_agent_node C s).valuation_data = Option.none
      ∧ (supervisor_agent_node C s).next_agent = Option.none
      ∧ (supervisor_agent_node C s).iteration_count = Option.none
      ∧ (supervisor_agent_node C s).final_recommendation.isSome = true)
  ∧ (∀ n : GNode, (merge s (nodeFn n C s)).stock_ticker = s.stock_ticker
       ∧ (merge s (nodeFn n C s)).query = s.query) := by
  obtain ⟨fa, rc, hf⟩ := financial_shape C s
  obtain ⟨ma, md, hm⟩ := market_shape C s
  obtain ⟨va, vd, hv⟩ := valuation_shape C s
  obtain ⟨rec, hs⟩ := supervisor_shape C s
  refine ⟨?_, ?_, ?_, ?_, ?_⟩
  · rw [hf]; exact ⟨rfl, rfl, rfl, rfl, rfl, rfl, rfl, rfl, rfl, rfl, rfl, rfl⟩
  · rw [hm]; exact ⟨rfl, rfl, rfl, rfl, rfl, rfl, rfl, rfl, rfl, rfl, rfl, rfl⟩
  · rw [hv]; exact ⟨rfl, rfl, rfl, rfl, rfl, rfl, rfl, rfl, rfl, rfl, rfl, rfl⟩
  · rw [hs]; exact ⟨rfl, rfl, rfl, rfl, rfl, rfl, rfl, rfl, rfl, rfl, rfl, rfl⟩
  · intro n
    cases n
    · rw [nodeFn, hf]; exact ⟨rfl, rfl⟩
    · rw [nodeFn, hm]; exact ⟨rfl, rfl⟩
    · rw [nodeFn, hv]; exact ⟨rfl, rfl⟩
    · rw [nodeFn, hs]; exact ⟨rfl, rfl⟩

/-- The aggregate after the financial node's update has merged. -/
def stage1 (C : Collaborators) (s0 : AgentState) : AgentState :=
  merge s0 (financial_agent_node C s0)

/-- The aggregate after the market node's update has merged. -/
def stage2 (C : Collaborators) (s0 : AgentState) : AgentState :=
  merge (stage1 C s0) (market_agent_node C (stage1 C s0))

/-- The aggregate after the valuation node's update has merged — the
state the supervisor reads. -/
def stage3 (C : Collaborators) (s0 : AgentState) : AgentState :=
  merge (stage2 C s0) (valuation_agent_node C (stage2 C s0))

/-- Claim C6: in every execution over the declared topology the
final_recommendation field is written by exactly one node — the
supervisor, which runs last — and the supervisor's single write happens
on the aggregate into which all three upstream analysis updates have
already merged. -/
theorem claim_C6 (l : List GNode) (C : Collaborators) (t q : String)
    (hp : l.Perm topoOrder) (hr : respectsEdges l) :
    (runTrace l C (initialState t q)).1.map Prod.fst = topoOrder
  ∧ ((runTrace l C (initialState t q)).1.filter
      (fun pr => pr.2.final_recommendation.isSome)).map Prod.fst = [GNode.supervisor]
  ∧ (runTrace l C (initialState t q)).1.getLast?
      = some (GNode.supervisor, supervisor_agent_node C (stage3 C (initialState t q)))
  ∧ some (stage3 C (initialState t q)).financial_analysis
      = (financial_agent_node C (initialState t q)).financial_analysis
  ∧ some (stage3 C (initialState t q)).market_analysis
      = (market_agent_node C (stage1 C (initialState t q))).market_analysis
  ∧ some (stage3 C (initialState t q)).valuation_analysis
      = (valuation_agent_node C (stage2 C (initialState t q))).valuation_analysis
  ∧ (runWorkflow l C (initialState t q)).final_recommendation
      = ((supervisor_agent_node C (stage3 C (initialState t q))).final_recommendation).getD
          (initialState t q).final_recommendation := by
  have hl : l = topoOrder := topo_unique l hp hr
  subst hl
  obtain ⟨fa, rc, hf⟩ := financial_shape C (initialState t q)
  obtain ⟨ma, md, hm⟩ := market_shape C
    (merge (initialState t q) (financial_agent_node C (initialState t q)))
  obtain ⟨va, vd, hv⟩ := valuation_shape C
    (merge (merge (initialState t q) (financial_agent_node C (initialState t q)))
      (market_agent_node C (merge (initialState t q) (financial_agent_node C (initialState t q)))))
  obtain ⟨rec, hs⟩ := supervisor_shape C
    (merge (merge (merge (initialState t q) (financial_agent_node C (initialState t q)))
        (market_agent_node C (merge (initialState t q) (financial_agent_node C (initialState t q)))))
      (valuation_agent_node C
        (merge (merge (initialState t q) (financial_agent_node C (initialState t q)))
          (market_agent_node C (merge (initialState t q) (financial_agent_node C (initialState t q)))))))
  have htrace : runTrace topoOrder C (initialState t q)
      = ([(GNode.financial, financial_agent_node C (initialState t q)),
          (GNode.market, market_agent_node C (stage1 C (initialState t q))),
          (GNode.valuation, valuation_agent_node C (stage2 C (initialState t q))),
          (GNode.supervisor, supervisor_agent_node C (stage3 C (initialState t q)))],
         merge (stage3 C (initialState t q))
           (supervisor_agent_node C (stage3 C (initialState t q)))) := rfl
  refine ⟨?_, ?_, ?_, ?_, ?_, ?_, ?_⟩
  · rw [htrace]
    rfl
  · rw [htrace]
    simp only [stage3, stage2, stage1]
    rw [hs, hv, hm, hf]
    rfl
  · rw [htrace]
    rfl
  · simp only [stage3, stage2, stage1]
    rw [hv, hm, hf]
    rfl
  · simp only [stage3, stage2, stage1]
    rw [hv, hm, hf]
    rfl
  · simp only [stage3, stage2, stage1]
    rw [hv, hm, hf]
    rfl
  · simp only [runWorkflow]
    rw [htrace]
    simp only [stage3, stage2, stage1]
    rw [hs, hv, hm, hf]
    rfl

/-- Witness for C6: under the all-failing bundle and the sequential
order, the supervisor is the only writer of final_recommendation. -/
theorem claim_C6_witness :
    ((runTrace topoOrder allFailC (initialState "AAPL" "值得投资吗")).1.filter
      (fun pr => pr.2.final_recommendation.isSome)).map Prod.fst = [GNode.supervisor] := by
  have h := claim_C6 topoOrder allFailC "AAPL" "值得投资吗" (List.Perm.refl topoOrder) (by decide)
  exact h.2.1

/-- Claim C4 (amended): the workflow itself is total — no external
failure can abort it — and always yields the three analysis texts and
a supervisor-written final_recommendation; whenever the response
construction succeeds, the response carries non-missing
financial_analysis, market_analysis and valuation_analysis; under
total collaborator failure the pipeline completes end to end, the
degraded final_recommendation (持有, score 5) passes the pydantic
validation, and the full validated response is returned.  However the
pipeline CAN abort with an HTTP 500 for a non-structural reason: a
successful generation whose parsed recommendation fails the response
validation (e.g. a score outside [1, 10]), so "never aborts for
external failures" does not hold of the code. -/
theorem claim_C4 (C : Collaborators) (t q : String) :
    (∃ rec, (supervisor_agent_node C (stage3 C (initialState t q))).final_recommendation
        = some rec
      ∧ (runWorkflow topoOrder C (initialState t q)).final_recommendation = rec)
  ∧ (∀ resp, analyze_stock C t q = Except.ok resp →
      resp.financial_analysis
          = some (runWorkflow topoOrder C (initialState t q)).financial_analysis
      ∧ resp.market_analysis
          = some (runWorkflow topoOrder C (initialState t q)).market_analysis
      ∧ resp.valuation_analysis
          = some (runWorkflow topoOrder C (initialState t q)).valuation_analysis)
  ∧ (∀ e, (∀ p, C.gen p = Except.error e) →
      (runWorkflow topoOrder C (initialState t q)).final_recommendation = errorRecommendation e
      ∧ analyze_stock C t q = Except.ok (degradedResponse t q e)
      ∧ (degradedResponse t q e).recommendation = some "持有"
      ∧ (degradedResponse t q e).score = some 5
      ∧ (degradedResponse t q e).reasoning = some ("分析失败: " ++ e)
      ∧ (runWorkflow topoOrder C (initialState t q)).financial_analysis = "财务分析失败: " ++ e
      ∧ (runWorkflow topoOrder C (initialState t q)).market_analysis = "市场分析失败: " ++ e
      ∧ (runWorkflow topoOrder C (initialState t q)).valuation_analysis = "估值分析失败: " ++ e) := by
  refine ⟨?_, ?_, ?_⟩
  · obtain ⟨rec, hs⟩ := supervisor_shape C (stage3 C (initialState t q))
    refine ⟨rec, by rw [hs], ?_⟩
    have hw : runWorkflow topoOrder C (initialState t q)
        = merge (stage3 C (initialState t q))
            (supervisor_agent_node C (stage3 C (initialState t q))) := rfl
    rw [hw, hs]
    rfl
  · intro resp h
    unfold analyze_stock at h
    split at h
    · rename_i resp0 hbuild
      injection h with h0
      subst h0
      unfold buildAnalysisResponse at hbuild
      simp only [bind, Except.bind] at hbuild
      repeat' split at hbuild
      all_goals cases hbuild
      exact ⟨rfl, rfl, rfl⟩
    · cases h
  · intro e hgen
    have hrun : runWorkflow topoOrder C (initialState t q) =
        { stock_ticker := t, query := q, messages := [],
          financial_analysis := "财务分析失败: " ++ e,
          market_analysis := "市场分析失败: " ++ e,
          valuation_analysis := "估值分析失败: " ++ e,
          rag_context := "",
          market_data := [], valuation_data := [],
          final_recommendation := errorRecommendation e,
          next_agent := "", iteration_count := 0 } := by
      simp [runWorkflow, runTrace, topoOrder, nodeFn, financial_agent_node,
        market_agent_node, valuation_agent_node, supervisor_agent_node, hgen,
        merge, initialState]
    refine ⟨?_, ?_, rfl, rfl, rfl, ?_, ?_, ?_⟩
    · rw [hrun]
    · unfold analyze_stock
      rw [hrun]
      rfl
    · rw [hrun]
    · rw [hrun]
    · rw [hrun]

/-- Witness for C4 under total external failure: the pipeline
completes and returns the validated degraded response. -/
theorem claim_C4_witness :
    analyze_stock allFailC "AAPL" "值得投资吗"
      = Except.ok (degradedResponse "AAPL" "值得投资吗" "boom") :=
  ((claim_C4 allFailC "AAPL" "值得投资吗").2.2 "boom" (fun p => rfl)).2.1

/-- Counterexample to C4 as stated: a SUCCESSFUL generation whose
parsed recommendation carries score 99 makes the pydantic validation
fail, and the pipeline aborts with an HTTP 500 instead of returning a
structurally complete response — an abort on external (not structural)
grounds. -/
theorem claim_C4_counterexample :
    (runWorkflow topoOrder badScoreC (initialState "AAPL" "值得投资吗")).final_recommendation
      = [("score", PyVal.num 99)]
  ∧ analyze_stock badScoreC "AAPL" "值得投资吗"
      = Except.error ("分析失败: " ++ "score: Input should be between 1 and 10") :=
  ⟨rfl, rfl⟩

/-- Claim C8: with a fixed topology-respecting order and collaborators
returning identical responses (all oracle components pointwise equal),
two pipeline executions produce identical final_recommendation values;
internal interleaving does not exist to influence the result, since any
order the executor can resolve is the unique sequential one. -/
theorem claim_C8 (l₁ l₂ : List GNode) (C₁ C₂ : Collaborators) (t q : String)
    (hp₁ : l₁.Perm topoOrder) (hr₁ : respectsEdges l₁)
    (hp₂ : l₂.Perm topoOrder) (hr₂ : respectsEdges l₂)
    (hgen : C₁.gen = C₂.gen) (hparse : C₁.parseJson = C₂.parseJson)
    (hmi : C₁.marketInfo = C₂.marketInfo) (hmh : C₁.marketHist = C₂.marketHist)
    (hmn : C₁.marketNow = C₂.marketNow) (hff : C₁.finFetch = C₂.finFetch)
    (hfn : C₁.finNow = C₂.finNow) (hvf : C₁.valFail = C₂.valFail)
    (hu : C₁.uniform = C₂.uniform) :
    (runWorkflow l₁ C₁ (initialState t q)).final_recommendation
      = (runWorkflow l₂ C₂ (initialState t q)).final_recommendation := by
  have hC : C₁ = C₂ := by
    cases C₁; cases C₂; simp_all
  subst hC
  rw [topo_unique l₁ hp₁ hr₁, topo_unique l₂ hp₂ hr₂]

/-- Witness for C8: the sequential order and the all-failing bundle,
run twice. -/
theorem claim_C8_witness :
    (runWorkflow topoOrder allFailC (initialState "AAPL" "值得投资吗")).final_recommendation
      = (runWorkflow topoOrder allFailC (initialState "AAPL" "值得投资吗")).final_recommendation :=
  claim_C8 topoOrder topoOrder allFailC allFailC "AAPL" "值得投资吗"
    (List.Perm.refl topoOrder) (by decide) (List.Perm.refl topoOrder) (by decide)
    rfl rfl rfl rfl rfl rfl rfl rfl rfl
